import Mathlib

/-!
Verification of the Artichoke host-state / exception-bootstrap core.

This file shallowly embeds the host-side bridge of the Artichoke Ruby
implementation:

- `src/artichoke-backend/src/state.rs` (`State`: output capture, teardown,
  type registry, symbol-intern cache);
- `src/artichoke-backend/src/extn/core/exception/mod.rs` (`init` bootstrap of
  the exception hierarchy, `raise`, the `RubyException` accessors `name` and
  `rclass`);
- `src/artichoke-backend/src/extn/core/float/mod.rs` (`init` with its
  already-registered guard).

Raw pointers (`mrb`, `ctx`, `(*mrb).ud`) are modelled by null-flags; the guest
VM collaborator (mruby) is modelled by explicit observable state: a trace of
class-definition calls, a symbol table for the intern primitive, and a console
string for uncaptured output.
-/

namespace Artichoke

/-- Built-in exception kinds: one Rust struct per kind is declared by
`ruby_exception_impl!` in `extn/core/exception/mod.rs`. -/
inductive ExcKind
  | Exception
  | NoMemoryError
  | ScriptError
  | LoadError
  | NotImplementedError
  | SyntaxError
  | SecurityError
  | SignalException
  | Interrupt
  | StandardError
  | ArgumentError
  | UncaughtThrowError
  | EncodingError
  | FiberError
  | IOError
  | EOFError
  | IndexError
  | KeyError
  | StopIteration
  | LocalJumpError
  | NameError
  | NoMethodError
  | RangeError
  | FloatDomainError
  | RegexpError
  | RuntimeError
  | FrozenError
  | SystemCallError
  | ThreadError
  | TypeError
  | ZeroDivisionError
  | SystemExit
  | SystemStackError
  | Fatal
deriving DecidableEq, Repr

/-- Host type identity (`TypeId` in `state.rs`): the registry is keyed by the
identity of a Rust type. Exception structs are distinguished kinds; every
other host type is an opaque identity tag. -/
inductive HostTy
  | exc (k : ExcKind)
  | floatTy
  | other (n : Nat)
deriving DecidableEq, Repr

/-- Modelled from the spec: `class::Spec` (not under `src/`): a class
specification carries a name and optional superclass/enclosing references
(section 3 of the design). Every call site in scope passes
`Spec::new(name, None, None)`, so only the name is carried here. -/
structure ClassSpec where
  name : String
deriving DecidableEq, Repr

/-- Modelled from the spec: `module::Spec` (not under `src/`), analogous to
`class::Spec`. -/
structure ModuleSpec where
  name : String
deriving DecidableEq, Repr

/-- One class definition issued to the guest VM by
`class::Builder::for_spec(..).with_super_class(..).define()`:
the defined class name and the optional superclass name. -/
structure GuestDef where
  name : String
  superClass : Option String
deriving DecidableEq, Repr

/-- Association-list lookup: first binding for the key wins. This models
`HashMap` lookup over a history of inserts where the newest insert for a key
shadows the older ones (the newest binding is at the head). -/
def assocLookup {α β : Type} [DecidableEq α] : List (α × β) → α → Option β
  | [], _ => none
  | p :: ps, a => if p.1 = a then some p.2 else assocLookup ps a

/-- The host `State` of `state.rs`, plus the observable state of the guest VM
collaborator. `mrbNull`, `udNull`, `ctxNull` model the null-ness of the raw
`mrb`, `(*mrb).ud` and `ctx` pointers; `guestDefs` is the trace of class
definitions issued to the VM (in order); `vmSymtab` is the VM's symbol table
(a symbol handle is an index into it); `console` accumulates uncaptured
output. -/
structure State where
  mrbNull : Bool
  udNull : Bool
  ctxNull : Bool
  classes : List (HostTy × ClassSpec)
  modules : List (HostTy × ModuleSpec)
  contextStack : List String
  activeRegexpGlobals : Nat
  symbolCache : List (List Nat × Nat)
  capturedOutput : Option String
  guestDefs : List GuestDef
  vmSymtab : List (List Nat)
  console : String
deriving DecidableEq, Repr

/-- `State::new`: a fresh open interpreter state (both VM pointers non-null,
the user-data slot holding the back-reference, everything else empty). -/
def State.new : State :=
  { mrbNull := false
    udNull := false
    ctxNull := false
    classes := []
    modules := []
    contextStack := []
    activeRegexpGlobals := 0
    symbolCache := []
    capturedOutput := none
    guestDefs := []
    vmSymtab := []
    console := "" }

/-- `State::capture_output`: `self.captured_output = Some(String::default())`. -/
def State.capture_output (s : State) : State :=
  { s with capturedOutput := some "" }

/-- `State::get_and_clear_captured_output`:
`self.captured_output.replace(String::default()).unwrap_or_default()`.
`Option::replace` stores `Some("")` and yields the previous value; the result
is that value, or `""` when none was present. -/
def State.get_and_clear_captured_output (s : State) : String × State :=
  ((s.capturedOutput).getD "", { s with capturedOutput := some "" })

/-- `State::print`: append to the capture buffer when capturing, else write to
the console (and flush). -/
def State.print (s : State) (str : String) : State :=
  match s.capturedOutput with
  | some buf => { s with capturedOutput := some (buf ++ str) }
  | none => { s with console := s.console ++ str }

/-- `State::puts`: like `print` but with a trailing newline appended. -/
def State.puts (s : State) (str : String) : State :=
  match s.capturedOutput with
  | some buf => { s with capturedOutput := some (buf ++ str ++ "\n") }
  | none => { s with console := s.console ++ str ++ "\n" }

/-- `State::close`: return immediately when `self.mrb` is null; return
immediately when `(*self.mrb).ud` is null; otherwise free the compile context,
close the VM, and null `self.ctx` and `self.mrb`. -/
def State.close (s : State) : State :=
  if s.mrbNull then s
  else if s.udNull then s
  else { s with ctxNull := true, mrbNull := true }

/-- `State::def_class::<T>(spec)`: `self.classes.insert(TypeId::of::<T>(), spec)`;
inserting shadows any previous binding for the same key. -/
def State.def_class (s : State) (t : HostTy) (spec : ClassSpec) : State :=
  { s with classes := (t, spec) :: s.classes }

/-- `State::class_spec::<T>()`: lookup by type identity, `None` when absent. -/
def State.class_spec (s : State) (t : HostTy) : Option ClassSpec :=
  assocLookup s.classes t

/-- `State::def_module::<T>(spec)`: `self.modules.insert(TypeId::of::<T>(), spec)`. -/
def State.def_module (s : State) (t : HostTy) (spec : ModuleSpec) : State :=
  { s with modules := (t, spec) :: s.modules }

/-- `State::module_spec::<T>()`: lookup by type identity, `None` when absent. -/
def State.module_spec (s : State) (t : HostTy) : Option ModuleSpec :=
  assocLookup s.modules t

/-! ## Guest VM collaborators

The guest VM (mruby) is out of scope for the repository sources; its ABI
surface used by the embedded code is modelled here with explicit state. -/

/-- Modelled from the spec: `class::Builder::define` (not under `src/`) issues
one class definition to the guest VM ABI (section 6: "raise-with-class" and
class definition are opaque ABI calls). The definition is recorded on the
trace; a re-definition of an existing name re-opens the class, so the first
definition of a name stays authoritative for lookups. -/
def State.builder_define (s : State) (d : GuestDef) : State :=
  { s with guestDefs := s.guestDefs ++ [d] }

/-- Lookup of a guest class by name in the definition trace: the first
definition of a name wins (later defines re-open the same class). -/
def guestLookup : List GuestDef → String → Option GuestDef
  | [], _ => none
  | d :: ds, n => if d.name = n then some d else guestLookup ds n

/-- A guest class handle (`*mut sys::RClass`) is identified by the class name:
the guest resolves classes by name, and a name maps to one live class. -/
def State.guestClass (s : State) (n : String) : Option GuestDef :=
  guestLookup s.guestDefs n

/-- Modelled from the spec: `class::Spec::rclass` (not under `src/`): resolves
the guest-visible class handle for the spec's name at call time (section 4.2:
"`name()` and `class_handle()` are resolved via the registry at call time").
Returns the handle when the class is defined in the guest, else `None`. -/
def State.spec_rclass (s : State) (spec : ClassSpec) : Option String :=
  if (s.guestClass spec.name).isSome then some spec.name else none

/-! ## Exception hierarchy bootstrap (`extn/core/exception/mod.rs`, `init`) -/

/-- `extn::core::exception::init`: defines the 34 classes of the hierarchy in
the guest VM, in source order, then registers each spec in the host registry
under the corresponding Rust type. The trailing `interp.eval(exception.rb)`
loads an opaque source blob (out of scope, section 1) and is not modelled.
There is no already-registered guard in this function. -/
def exceptionInit (s : State) : State :=
  let s := s.builder_define ⟨"Exception", none⟩
  let s := s.builder_define ⟨"NoMemoryError", some "Exception"⟩
  let s := s.builder_define ⟨"ScriptError", some "Exception"⟩
  let s := s.builder_define ⟨"LoadError", some "ScriptError"⟩
  let s := s.builder_define ⟨"NotImplementedError", some "ScriptError"⟩
  let s := s.builder_define ⟨"SyntaxError", some "ScriptError"⟩
  let s := s.builder_define ⟨"SecurityError", some "Exception"⟩
  let s := s.builder_define ⟨"SignalException", some "Exception"⟩
  let s := s.builder_define ⟨"Interrupt", some "SignalException"⟩
  let s := s.builder_define ⟨"StandardError", some "Exception"⟩
  let s := s.builder_define ⟨"ArgumentError", some "StandardError"⟩
  let s := s.builder_define ⟨"UncaughtThrowError", some "ArgumentError"⟩
  let s := s.builder_define ⟨"EncodingError", some "StandardError"⟩
  let s := s.builder_define ⟨"FiberError", some "StandardError"⟩
  let s := s.builder_define ⟨"IOError", some "StandardError"⟩
  let s := s.builder_define ⟨"EOFError", some "IOError"⟩
  let s := s.builder_define ⟨"IndexError", some "StandardError"⟩
  let s := s.builder_define ⟨"KeyError", some "IndexError"⟩
  let s := s.builder_define ⟨"StopIteration", some "IndexError"⟩
  let s := s.builder_define ⟨"LocalJumpError", some "StandardError"⟩
  let s := s.builder_define ⟨"NameError", some "StandardError"⟩
  let s := s.builder_define ⟨"NoMethodError", some "NameError"⟩
  let s := s.builder_define ⟨"RangeError", some "StandardError"⟩
  let s := s.builder_define ⟨"FloatDomainError", some "RangeError"⟩
  let s := s.builder_define ⟨"RegexpError", some "StandardError"⟩
  let s := s.builder_define ⟨"RuntimeError", some "StandardError"⟩
  let s := s.builder_define ⟨"FrozenError", some "RuntimeError"⟩
  let s := s.builder_define ⟨"SystemCallError", some "StandardError"⟩
  let s := s.builder_define ⟨"ThreadError", some "StandardError"⟩
  let s := s.builder_define ⟨"TypeError", some "StandardError"⟩
  let s := s.builder_define ⟨"ZeroDivisionError", some "StandardError"⟩
  let s := s.builder_define ⟨"SystemExit", some "Exception"⟩
  let s := s.builder_define ⟨"SystemStackError", some "Exception"⟩
  let s := s.builder_define ⟨"fatal", some "Exception"⟩
  let s := s.def_class (.exc .Exception) ⟨"Exception"⟩
  let s := s.def_class (.exc .NoMemoryError) ⟨"NoMemoryError"⟩
  let s := s.def_class (.exc .ScriptError) ⟨"ScriptError"⟩
  let s := s.def_class (.exc .LoadError) ⟨"LoadError"⟩
  let s := s.def_class (.exc .NotImplementedError) ⟨"NotImplementedError"⟩
  let s := s.def_class (.exc .SyntaxError) ⟨"SyntaxError"⟩
  let s := s.def_class (.exc .SecurityError) ⟨"SecurityError"⟩
  let s := s.def_class (.exc .SignalException) ⟨"SignalException"⟩
  let s := s.def_class (.exc .Interrupt) ⟨"Interrupt"⟩
  let s := s.def_class (.exc .StandardError) ⟨"StandardError"⟩
  let s := s.def_class (.exc .ArgumentError) ⟨"ArgumentError"⟩
  let s := s.def_class (.exc .UncaughtThrowError) ⟨"UncaughtThrowError"⟩
  let s := s.def_class (.exc .EncodingError) ⟨"EncodingError"⟩
  let s := s.def_class (.exc .FiberError) ⟨"FiberError"⟩
  let s := s.def_class (.exc .IOError) ⟨"IOError"⟩
  let s := s.def_class (.exc .EOFError) ⟨"EOFError"⟩
  let s := s.def_class (.exc .IndexError) ⟨"IndexError"⟩
  let s := s.def_class (.exc .KeyError) ⟨"KeyError"⟩
  let s := s.def_class (.exc .StopIteration) ⟨"StopIteration"⟩
  let s := s.def_class (.exc .LocalJumpError) ⟨"LocalJumpError"⟩
  let s := s.def_class (.exc .NameError) ⟨"NameError"⟩
  let s := s.def_class (.exc .NoMethodError) ⟨"NoMethodError"⟩
  let s := s.def_class (.exc .RangeError) ⟨"RangeError"⟩
  let s := s.def_class (.exc .FloatDomainError) ⟨"FloatDomainError"⟩
  let s := s.def_class (.exc .RegexpError) ⟨"RegexpError"⟩
  let s := s.def_class (.exc .RuntimeError) ⟨"RuntimeError"⟩
  let s := s.def_class (.exc .FrozenError) ⟨"FrozenError"⟩
  let s := s.def_class (.exc .SystemCallError) ⟨"SystemCallError"⟩
  let s := s.def_class (.exc .ThreadError) ⟨"ThreadError"⟩
  let s := s.def_class (.exc .TypeError) ⟨"TypeError"⟩
  let s := s.def_class (.exc .ZeroDivisionError) ⟨"ZeroDivisionError"⟩
  let s := s.def_class (.exc .SystemExit) ⟨"SystemExit"⟩
  let s := s.def_class (.exc .SystemStackError) ⟨"SystemStackError"⟩
  let s := s.def_class (.exc .Fatal) ⟨"fatal"⟩
  s

/-- The 34 guest class definitions issued by one run of `exceptionInit`, in
source order. -/
def initGuestDefs : List GuestDef :=
  [⟨"Exception", none⟩,
   ⟨"NoMemoryError", some "Exception"⟩,
   ⟨"ScriptError", some "Exception"⟩,
   ⟨"LoadError", some "ScriptError"⟩,
   ⟨"NotImplementedError", some "ScriptError"⟩,
   ⟨"SyntaxError", some "ScriptError"⟩,
   ⟨"SecurityError", some "Exception"⟩,
   ⟨"SignalException", some "Exception"⟩,
   ⟨"Interrupt", some "SignalException"⟩,
   ⟨"StandardError", some "Exception"⟩,
   ⟨"ArgumentError", some "StandardError"⟩,
   ⟨"UncaughtThrowError", some "ArgumentError"⟩,
   ⟨"EncodingError", some "StandardError"⟩,
   ⟨"FiberError", some "StandardError"⟩,
   ⟨"IOError", some "StandardError"⟩,
   ⟨"EOFError", some "IOError"⟩,
   ⟨"IndexError", some "StandardError"⟩,
   ⟨"KeyError", some "IndexError"⟩,
   ⟨"StopIteration", some "IndexError"⟩,
   ⟨"LocalJumpError", some "StandardError"⟩,
   ⟨"NameError", some "StandardError"⟩,
   ⟨"NoMethodError", some "NameError"⟩,
   ⟨"RangeError", some "StandardError"⟩,
   ⟨"FloatDomainError", some "RangeError"⟩,
   ⟨"RegexpError", some "StandardError"⟩,
   ⟨"RuntimeError", some "StandardError"⟩,
   ⟨"FrozenError", some "RuntimeError"⟩,
   ⟨"SystemCallError", some "StandardError"⟩,
   ⟨"ThreadError", some "StandardError"⟩,
   ⟨"TypeError", some "StandardError"⟩,
   ⟨"ZeroDivisionError", some "StandardError"⟩,
   ⟨"SystemExit", some "Exception"⟩,
   ⟨"SystemStackError", some "Exception"⟩,
   ⟨"fatal", some "Exception"⟩]

/-- The interpreter state right after the bootstrap runs on a fresh state. -/
def afterInit : State := exceptionInit State.new

/-- The (child, parent) edges of the fixed hierarchy table in section 4.2 of
the design: 33 edges below the root `Exception`. -/
def hierarchyEdges : List (String × String) :=
  [("NoMemoryError", "Exception"),
   ("ScriptError", "Exception"),
   ("LoadError", "ScriptError"),
   ("NotImplementedError", "ScriptError"),
   ("SyntaxError", "ScriptError"),
   ("SecurityError", "Exception"),
   ("SignalException", "Exception"),
   ("Interrupt", "SignalException"),
   ("StandardError", "Exception"),
   ("ArgumentError", "StandardError"),
   ("UncaughtThrowError", "ArgumentError"),
   ("EncodingError", "StandardError"),
   ("FiberError", "StandardError"),
   ("IOError", "StandardError"),
   ("EOFError", "IOError"),
   ("IndexError", "StandardError"),
   ("KeyError", "IndexError"),
   ("StopIteration", "IndexError"),
   ("LocalJumpError", "StandardError"),
   ("NameError", "StandardError"),
   ("NoMethodError", "NameError"),
   ("RangeError", "StandardError"),
   ("FloatDomainError", "RangeError"),
   ("RegexpError", "StandardError"),
   ("RuntimeError", "StandardError"),
   ("FrozenError", "RuntimeError"),
   ("SystemCallError", "StandardError"),
   ("ThreadError", "StandardError"),
   ("TypeError", "StandardError"),
   ("ZeroDivisionError", "StandardError"),
   ("SystemExit", "Exception"),
   ("SystemStackError", "Exception"),
   ("fatal", "Exception")]

/-! ## Float initializer (`extn/core/float/mod.rs`, `init`) -/

/-- `extn::core::float::init`: guarded initializer. When a class spec for
`Float` is already registered, it returns immediately; otherwise it registers
the `Float` spec (the `float.rb` blob and the `EPSILON` constant evals are
opaque, out of scope). -/
def floatInit (s : State) : State :=
  if (s.class_spec .floatTy).isSome then s
  else s.def_class .floatTy ⟨"Float"⟩

/-! ## Exception values and the `RubyException` accessors -/

/-- A concrete exception value built by `$exception::new`: a kind (the Rust
struct the `ruby_exception_impl!` macro instantiated) and an owned message.
The interpreter reference held by the Rust value is the `State` each accessor
receives. -/
structure ExcValue where
  kind : ExcKind
  message : String
deriving DecidableEq, Repr

/-- `RubyException::name` (from `ruby_exception_impl!`):
`class_spec::<Self>().map(..name..).unwrap_or_default()` — the registered
spec's name, or the empty string when the kind is not registered. -/
def excName (s : State) (e : ExcValue) : String :=
  ((s.class_spec (.exc e.kind)).map ClassSpec.name).getD ""

/-- `RubyException::rclass` (from `ruby_exception_impl!`):
`class_spec::<Self>().and_then(rclass)` — `None` when the kind is not
registered or the spec's class is not defined in the guest. -/
def excRclass (s : State) (e : ExcValue) : Option String :=
  (s.class_spec (.exc e.kind)).bind s.spec_rclass

/-! ## The raise / non-local error bridge -/

/-- How a call to `raise` exits. `raise` has return type `!` in the source: it
never returns normally and never yields an error result, so its outcome type
has no normal-return alternative — only the abort path (the `panic!` when no
class handle resolves) and the `longjmp` path (`sys::mrb_raisef`, carrying the
resolved class handle and the message converted to a guest value). -/
inductive RaiseOutcome
  | fatalAbort (msg : String)
  | longjmpIntoVM (eclass : String) (formatargs : String)
deriving DecidableEq, Repr

/-- `extn::core::exception::raise`: resolve `exception.rclass()`; when `None`,
abort via `panic!("unable to raise {name}")`; otherwise convert the message,
drop host-owned values, and `mrb_raisef` (a `longjmp` that never returns). -/
def raise (s : State) (e : ExcValue) : RaiseOutcome :=
  match excRclass s e with
  | some eclass => .longjmpIntoVM eclass e.message
  | none => .fatalAbort (excName s e)

/-! ## Symbol interning (`State::sym_intern`) -/

/-- Lookup of a byte string in the guest VM's symbol table: the handle of a
symbol is its index in the table. -/
def vmSymLookup : List (List Nat) → List Nat → Option Nat
  | [], _ => none
  | t :: ts, n => if t = n then some 0 else (vmSymLookup ts n).map (· + 1)

/-- Modelled from the spec: `sys::mrb_intern_static` (guest VM ABI, not under
`src/`): content-addressed interning (section 3: "equality by content, not
identity; stable for the interpreter's lifetime"). An already-interned byte
string yields its existing handle; a new one is appended and yields a fresh
handle. Returns the handle and the updated symbol table. -/
def mrb_intern_static (tab : List (List Nat)) (n : List Nat) : Nat × List (List Nat) :=
  match vmSymLookup tab n with
  | some i => (i, tab)
  | none => (tab.length, tab ++ [n])

/-- `State::sym_intern`: `self.symbol_cache.entry(sym).or_insert_with(||
mrb_intern_static(..))` — return the cached handle on a hit; on a miss call
the guest intern primitive and cache the result. -/
def State.sym_intern (s : State) (n : List Nat) : Nat × State :=
  match assocLookup s.symbolCache n with
  | some h => (h, s)
  | none =>
      let r := mrb_intern_static s.vmSymtab n
      (r.1, { s with symbolCache := (n, r.1) :: s.symbolCache, vmSymtab := r.2 })

/-- Cache consistency: every cached entry agrees with the VM symbol table
(the cached handle indexes the cached byte string). Holds for `State.new` and
is preserved by every operation; `sym_intern` is the only cache writer. -/
def CacheOk (s : State) : Prop :=
  ∀ p ∈ s.symbolCache, s.vmSymtab.get? p.2 = some p.1

/-! ## Registration histories

To state "`class_spec` returns `None` if no specification was ever registered
and the most recently registered one otherwise" we run an arbitrary history of
registrations against a fresh state. -/

/-- One registration call on the `State` registry. -/
inductive RegOp
  | defClass (t : HostTy) (spec : ClassSpec)
  | defModule (t : HostTy) (spec : ModuleSpec)
deriving DecidableEq, Repr

/-- Apply one registration call. -/
def applyRegOp (s : State) : RegOp → State
  | .defClass t spec => s.def_class t spec
  | .defModule t spec => s.def_module t spec

/-- Run a chronological history of registrations against a fresh state. -/
def runRegOps (ops : List RegOp) : State :=
  ops.foldl applyRegOp State.new

/-- The most recent class registration for a key in a chronological history
(`none` when the key was never registered as a class). -/
def lastClassReg : List RegOp → HostTy → Option ClassSpec
  | [], _ => none
  | op :: ops, t =>
      match lastClassReg ops t with
      | some sp => some sp
      | none =>
          match op with
          | .defClass u sp => if u = t then some sp else none
          | .defModule _ _ => none

/-- The most recent module registration for a key in a chronological history. -/
def lastModuleReg : List RegOp → HostTy → Option ModuleSpec
  | [], _ => none
  | op :: ops, t =>
      match lastModuleReg ops t with
      | some sp => some sp
      | none =>
          match op with
          | .defModule u sp => if u = t then some sp else none
          | .defClass _ _ => none

/-! ## Distinguished concrete states -/

/-- Whether the root `Exception` class spec is registered. -/
def rootRegistered (s : State) : Bool :=
  (s.class_spec (.exc .Exception)).isSome

/-- An open interpreter whose guest user-data slot is null: `mrb` is non-null
but `(*mrb).ud` is null. -/
def udNullState : State :=
  { State.new with udNull := true }

/-! # Theorems -/

/-- C1: `raise` never returns normally: for every state and exception value,
when resolving the guest-visible class handle via the registry yields no
handle, `raise` exits by aborting the process (the `panic!` path), and when a
handle resolves, `raise` exits by the guest VM's non-local jump carrying that
handle and the message — every call ends in one of these two exits, never in
a returned error result. -/
theorem claim_C1_raise_outcome (s : State) (e : ExcValue) :
    (excRclass s e = none → raise s e = .fatalAbort (excName s e)) ∧
    (∀ c, excRclass s e = some c → raise s e = .longjmpIntoVM c e.message) ∧
    (∀ c m, raise s e = .longjmpIntoVM c m → excRclass s e = some c ∧ m = e.message) ∧
    (raise s e = .fatalAbort (excName s e) ∨
      ∃ c, raise s e = .longjmpIntoVM c e.message) := by
  unfold raise
  cases excRclass s e with
  | none => simp
  | some c => simp

/-- C1 witness: the abort exit on a fresh state (nothing registered) and the
longjmp exit for a registered `RuntimeError` after bootstrap. -/
theorem claim_C1_raise_outcome_witness :
    raise State.new ⟨.Interrupt, "sig"⟩ =
      .fatalAbort (excName State.new ⟨.Interrupt, "sig"⟩) ∧
    raise afterInit ⟨.RuntimeError, "boom"⟩ =
      .longjmpIntoVM "RuntimeError" "boom" :=
  ⟨(claim_C1_raise_outcome State.new ⟨.Interrupt, "sig"⟩).1 rfl,
   (claim_C1_raise_outcome afterInit ⟨.RuntimeError, "boom"⟩).2.1 "RuntimeError"
     (by decide)⟩

/-- C2 counterexample: after one bootstrap the root `Exception` class is
registered, yet a second invocation of the exception-hierarchy bootstrap is
not a no-op: it changes the state (it re-issues every guest class definition),
so the claimed return-immediately guard does not exist. -/
theorem claim_C2_counterexample :
    rootRegistered afterInit = true ∧ exceptionInit afterInit ≠ afterInit := by
  constructor
  · decide
  · intro h
    have := congrArg State.guestDefs h
    revert this
    decide

/-- C2 amended: the exception-hierarchy bootstrap has no already-registered
guard. Even with the root `Exception` registered, a second invocation repeats
all 34 guest class definitions (the definition trace doubles); each
registration silently replaces the previous one, so registry lookups are
unchanged and the registry still holds exactly one specification per kind. -/
theorem claim_C2_amended_bootstrap :
    rootRegistered afterInit = true ∧
    (exceptionInit afterInit).guestDefs = initGuestDefs ++ initGuestDefs ∧
    ∀ k : ExcKind,
      (exceptionInit afterInit).class_spec (.exc k) = afterInit.class_spec (.exc k) := by
  refine ⟨by decide, by decide, ?_⟩
  intro k
  cases k <;> decide

/-- C3: after the bootstrap runs, every (child, parent) edge of the fixed
section 4.2 hierarchy table holds: the child class is defined in the guest
with the parent as its superclass, and the parent's class handle resolves. -/
theorem claim_C3_hierarchy_edges :
    ∀ e ∈ hierarchyEdges,
      (guestLookup afterInit.guestDefs e.1).map GuestDef.superClass =
        some (some e.2) ∧
      (guestLookup afterInit.guestDefs e.2).isSome = true := by
  decide

/-- C3 witness: the `LoadError` under `ScriptError` edge. -/
theorem claim_C3_hierarchy_edges_witness :
    (guestLookup afterInit.guestDefs "LoadError").map GuestDef.superClass =
      some (some "ScriptError") ∧
    (guestLookup afterInit.guestDefs "ScriptError").isSome = true :=
  claim_C3_hierarchy_edges ("LoadError", "ScriptError") (by decide)

/-- C4 counterexample: on a state whose VM handle is non-null but whose guest
user-data slot is null, `close` returns without freeing or nulling anything,
so "if the VM handle is non-null, close nulls both handles" fails. -/
theorem claim_C4_counterexample :
    udNullState.mrbNull = false ∧
    State.close udNullState = udNullState ∧
    (State.close udNullState).mrbNull = false ∧
    (State.close udNullState).ctxNull = false := by
  decide

/-- C4 amended: `close` is idempotent and total (a second call never faults
and changes nothing); it is a no-op when the VM handle is null, and also when
the guest user-data slot is null; only when both are non-null does it free the
compile context and the VM and null both handles. -/
theorem claim_C4_amended_close (s : State) :
    State.close (State.close s) = State.close s ∧
    (s.mrbNull = true → State.close s = s) ∧
    (s.udNull = true → State.close s = s) ∧
    (s.mrbNull = false → s.udNull = false →
      (State.close s).mrbNull = true ∧ (State.close s).ctxNull = true) := by
  cases hm : s.mrbNull <;> cases hu : s.udNull <;>
    simp [State.close, hm, hu]

/-- C4 amended witness: closing a fresh open interpreter nulls both handles,
and a second close changes nothing. -/
theorem claim_C4_amended_close_witness :
    State.close (State.close State.new) = State.close State.new ∧
    (State.close State.new).mrbNull = true ∧
    (State.close State.new).ctxNull = true :=
  ⟨(claim_C4_amended_close State.new).1,
   (claim_C4_amended_close State.new).2.2.2 rfl rfl⟩

/-- C5: draining the captured output never fails: with no capture active it
returns the empty string, and with an active buffer it returns the buffer's
contents and resets the buffer to empty. -/
theorem claim_C5_drain (s : State) :
    (s.capturedOutput = none → s.get_and_clear_captured_output.1 = "") ∧
    (∀ buf, s.capturedOutput = some buf →
      s.get_and_clear_captured_output.1 = buf ∧
      s.get_and_clear_captured_output.2.capturedOutput = some "") := by
  constructor
  · intro h
    simp [State.get_and_clear_captured_output, h]
  · intro buf h
    simp [State.get_and_clear_captured_output, h]

/-- C5 witness: draining a fresh state yields the empty string; draining after
capturing one `puts` yields the buffer and leaves an empty active buffer. -/
theorem claim_C5_drain_witness :
    (State.new.get_and_clear_captured_output).1 = "" ∧
    ((State.new.capture_output.puts "x").get_and_clear_captured_output).1 = "x\n" ∧
    ((State.new.capture_output.puts "x").get_and_clear_captured_output).2.capturedOutput
      = some "" :=
  ⟨(claim_C5_drain State.new).1 rfl,
   ((claim_C5_drain (State.new.capture_output.puts "x")).2 "x\n" (by decide)).1,
   ((claim_C5_drain (State.new.capture_output.puts "x")).2 "x\n" (by decide)).2⟩

/-- C8: from any state, `capture_output(); puts("a"); puts("b")` followed by a
drain returns `"a\nb\n"` (`puts` appends a trailing newline to the buffer),
and an immediately following drain returns `""`. -/
theorem claim_C8_capture_sequence (s : State) :
    (((s.capture_output.puts "a").puts "b").get_and_clear_captured_output).1
      = "a\nb\n" ∧
    ((((s.capture_output.puts "a").puts "b").get_and_clear_captured_output).2.get_and_clear_captured_output).1
      = "" := by
  constructor <;> rfl

/-- C9: draining always leaves an active empty capture buffer, even when no
capture was active before the call: after draining a state with
`captured_output` equal to `None`, `print` and `puts` append to the capture
buffer and leave the console untouched. -/
theorem claim_C9_drain_activates (s : State) (str : String)
    (_h : s.capturedOutput = none) :
    (s.get_and_clear_captured_output).2.capturedOutput = some "" ∧
    ((s.get_and_clear_captured_output).2.print str).capturedOutput = some str ∧
    ((s.get_and_clear_captured_output).2.print str).console = s.console ∧
    ((s.get_and_clear_captured_output).2.puts str).capturedOutput
      = some (str ++ "\n") ∧
    ((s.get_and_clear_captured_output).2.puts str).console = s.console := by
  refine ⟨rfl, ?_, rfl, ?_, rfl⟩
  · simp [State.get_and_clear_captured_output, State.print]
  · simp [State.get_and_clear_captured_output, State.puts]

/-- C9 witness: a fresh state (no capture active), drained, then printed to. -/
theorem claim_C9_drain_activates_witness :
    (State.new.get_and_clear_captured_output).2.capturedOutput = some "" ∧
    ((State.new.get_and_clear_captured_output).2.print "w").capturedOutput
      = some "w" ∧
    ((State.new.get_and_clear_captured_output).2.print "w").console
      = State.new.console ∧
    ((State.new.get_and_clear_captured_output).2.puts "w").capturedOutput
      = some ("w" ++ "\n") ∧
    ((State.new.get_and_clear_captured_output).2.puts "w").console
      = State.new.console :=
  claim_C9_drain_activates State.new "w" rfl

/-- C10: for an exception value whose kind has no entry in the class registry,
`name()` returns the empty string and `rclass()` returns `None`; both are
total. -/
theorem claim_C10_unregistered_accessors (s : State) (e : ExcValue)
    (h : s.class_spec (.exc e.kind) = none) :
    excName s e = "" ∧ excRclass s e = none := by
  simp [excName, excRclass, h]

/-- C10 witness: a `RuntimeError` value against a fresh, empty registry. -/
theorem claim_C10_unregistered_accessors_witness :
    excName State.new ⟨.RuntimeError, "boom"⟩ = "" ∧
    excRclass State.new ⟨.RuntimeError, "boom"⟩ = none :=
  claim_C10_unregistered_accessors State.new ⟨.RuntimeError, "boom"⟩ rfl

/-! ## Registry lemmas (towards C7) -/

/-- Class lookup after a single class registration: the registered key maps to
the new spec, other keys are unchanged. -/
theorem class_spec_def_class (s : State) (u t : HostTy) (sp : ClassSpec) :
    (s.def_class u sp).class_spec t =
      if u = t then some sp else s.class_spec t := rfl

/-- Module lookup after a single module registration. -/
theorem module_spec_def_module (s : State) (u t : HostTy) (sp : ModuleSpec) :
    (s.def_module u sp).module_spec t =
      if u = t then some sp else s.module_spec t := rfl

/-- Folding a registration history over any start state: class lookup yields
the most recent class registration in the history, else falls through to the
start state. -/
theorem class_spec_foldRegOps (ops : List RegOp) (t : HostTy) :
    ∀ s : State,
      (ops.foldl applyRegOp s).class_spec t =
        match lastClassReg ops t with
        | some sp => some sp
        | none => s.class_spec t := by
  induction ops with
  | nil => intro s; rfl
  | cons op ops ih =>
      intro s
      rw [List.foldl_cons, ih]
      cases hl : lastClassReg ops t with
      | some sp => simp [lastClassReg, hl]
      | none =>
          cases op with
          | defClass u sp =>
              by_cases hut : u = t <;>
                simp [lastClassReg, hl, applyRegOp, class_spec_def_class, hut]
          | defModule u sp =>
              simp [lastClassReg, hl, applyRegOp, State.def_module,
                State.class_spec]

/-- Folding a registration history over any start state: module lookup yields
the most recent module registration in the history, else falls through. -/
theorem module_spec_foldRegOps (ops : List RegOp) (t : HostTy) :
    ∀ s : State,
      (ops.foldl applyRegOp s).module_spec t =
        match lastModuleReg ops t with
        | some sp => some sp
        | none => s.module_spec t := by
  induction ops with
  | nil => intro s; rfl
  | cons op ops ih =>
      intro s
      rw [List.foldl_cons, ih]
      cases hl : lastModuleReg ops t with
      | some sp => simp [lastModuleReg, hl]
      | none =>
          cases op with
          | defModule u sp =>
              by_cases hut : u = t <;>
                simp [lastModuleReg, hl, applyRegOp, module_spec_def_module, hut]
          | defClass u sp =>
              simp [lastModuleReg, hl, applyRegOp, State.def_class,
                State.module_spec]

/-- Running a registration history from a fresh state: class lookup is exactly
the most recent class registration for the key. -/
theorem class_spec_runRegOps (ops : List RegOp) (t : HostTy) :
    (runRegOps ops).class_spec t = lastClassReg ops t := by
  rw [runRegOps, class_spec_foldRegOps]
  cases lastClassReg ops t <;> rfl

/-- Running a registration history from a fresh state: module lookup is
exactly the most recent module registration for the key. -/
theorem module_spec_runRegOps (ops : List RegOp) (t : HostTy) :
    (runRegOps ops).module_spec t = lastModuleReg ops t := by
  rw [runRegOps, module_spec_foldRegOps]
  cases lastModuleReg ops t <;> rfl

/-- C7: for every registration history run from a fresh state, `class_spec`
(resp. `module_spec`) returns the most recently registered specification for
the key and `None` when the key was never registered (`lastClassReg` /
`lastModuleReg` return exactly that); moreover a second registration for the
same key silently replaces the first, with no error. -/
theorem claim_C7_registry (ops : List RegOp) (t : HostTy) (s : State)
    (sp₁ sp₂ : ClassSpec) (msp₁ msp₂ : ModuleSpec) :
    (runRegOps ops).class_spec t = lastClassReg ops t ∧
    (runRegOps ops).module_spec t = lastModuleReg ops t ∧
    ((s.def_class t sp₁).def_class t sp₂).class_spec t = some sp₂ ∧
    ((s.def_module t msp₁).def_module t msp₂).module_spec t = some msp₂ := by
  refine ⟨class_spec_runRegOps ops t, module_spec_runRegOps ops t, ?_, ?_⟩ <;>
    simp [State.def_class, State.def_module, State.class_spec,
      State.module_spec, assocLookup]

/-! ## Symbol-cache lemmas (towards C6) -/

/-- A successful VM symbol lookup indexes the looked-up byte string. -/
theorem vmSymLookup_get (tab : List (List Nat)) : ∀ (n : List Nat) (i : Nat),
    vmSymLookup tab n = some i → tab.get? i = some n := by
  induction tab with
  | nil => intro n i h; simp [vmSymLookup] at h
  | cons t ts ih =>
      intro n i h
      simp only [vmSymLookup] at h
      by_cases htn : t = n
      · rw [if_pos htn] at h
        injection h with h
        subst h
        simp [htn]
      · rw [if_neg htn] at h
        rcases Option.map_eq_some'.mp h with ⟨j, hj, hij⟩
        subst hij
        simpa using ih n j hj

/-- Appending to a list preserves successful indexed lookups. -/
theorem get?_append_of_some {α : Type} (tab l : List α) :
    ∀ (i : Nat) (m : α), tab.get? i = some m → (tab ++ l).get? i = some m := by
  induction tab with
  | nil => intro i m h; simp at h
  | cons t ts ih =>
      intro i m h
      cases i with
      | zero => simpa using h
      | succ j => simpa using ih j m (by simpa using h)

/-- The intern primitive returns a handle that indexes the interned byte
string in the updated symbol table. -/
theorem mrb_intern_static_get (tab : List (List Nat)) (n : List Nat) :
    (mrb_intern_static tab n).2.get? (mrb_intern_static tab n).1 = some n := by
  unfold mrb_intern_static
  cases h : vmSymLookup tab n with
  | some i => simpa using vmSymLookup_get tab n i h
  | none => simp [List.get?_eq_getElem?, List.getElem?_concat_length]

/-- The intern primitive preserves existing symbol-table entries. -/
theorem mrb_intern_static_mono (tab : List (List Nat)) (n : List Nat) (i : Nat)
    (m : List Nat) (h : tab.get? i = some m) :
    (mrb_intern_static tab n).2.get? i = some m := by
  unfold mrb_intern_static
  cases vmSymLookup tab n with
  | some j => simpa using h
  | none => simpa using get?_append_of_some tab [n] i m h

/-- A successful association lookup exhibits a member of the list. -/
theorem assocLookup_mem {α β : Type} [DecidableEq α] :
    ∀ (l : List (α × β)) (a : α) (b : β),
      assocLookup l a = some b → (a, b) ∈ l := by
  intro l
  induction l with
  | nil => intro a b h; simp [assocLookup] at h
  | cons p ps ih =>
      intro a b h
      simp only [assocLookup] at h
      by_cases hpa : p.1 = a
      · rw [if_pos hpa] at h
        injection h with h
        have : p = (a, b) := Prod.ext hpa h
        rw [← this]
        exact List.mem_cons_self p ps
      · rw [if_neg hpa] at h
        exact List.mem_cons_of_mem _ (ih a b h)

/-- On a cache hit, `sym_intern` returns the cached handle and leaves the
state unchanged (no VM call). -/
theorem sym_intern_hit (s : State) (n : List Nat) {hdl : Nat}
    (h : assocLookup s.symbolCache n = some hdl) :
    s.sym_intern n = (hdl, s) := by
  unfold State.sym_intern
  rw [h]

/-- After interning, the cache maps the interned byte string to the returned
handle. -/
theorem sym_intern_cache_lookup (s : State) (n : List Nat) :
    assocLookup (s.sym_intern n).2.symbolCache n = some (s.sym_intern n).1 := by
  unfold State.sym_intern
  cases h : assocLookup s.symbolCache n with
  | some hdl => simpa using h
  | none => simp [assocLookup]

/-- With a consistent cache, the handle returned by `sym_intern` indexes the
interned byte string in the VM symbol table. -/
theorem sym_intern_get (s : State) (n : List Nat) (hs : CacheOk s) :
    (s.sym_intern n).2.vmSymtab.get? (s.sym_intern n).1 = some n := by
  unfold State.sym_intern
  cases h : assocLookup s.symbolCache n with
  | some hdl => simpa using hs (n, hdl) (assocLookup_mem _ _ _ h)
  | none => simpa using mrb_intern_static_get s.vmSymtab n

/-- `sym_intern` preserves existing VM symbol-table entries. -/
theorem sym_intern_mono (s : State) (n : List Nat) (i : Nat) (m : List Nat)
    (h : s.vmSymtab.get? i = some m) :
    (s.sym_intern n).2.vmSymtab.get? i = some m := by
  unfold State.sym_intern
  cases assocLookup s.symbolCache n with
  | some hdl => simpa using h
  | none => simpa using mrb_intern_static_mono s.vmSymtab n i m h

/-- `sym_intern` preserves cache consistency. -/
theorem sym_intern_cacheOk (s : State) (n : List Nat) (hs : CacheOk s) :
    CacheOk (s.sym_intern n).2 := by
  unfold State.sym_intern
  cases assocLookup s.symbolCache n with
  | some hdl => exact hs
  | none =>
      intro p hp
      rcases List.mem_cons.mp hp with hp | hp
      · subst hp
        simpa using mrb_intern_static_get s.vmSymtab n
      · simpa using mrb_intern_static_mono s.vmSymtab n p.2 p.1 (hs p hp)

/-- C6: over any state with a consistent symbol cache, `sym_intern` is
idempotent and referentially stable (interning the same byte sequence twice
returns an identical handle; a cache hit returns the cached handle with no
state change), and interning two distinct byte sequences returns distinct
handles. -/
theorem claim_C6_sym_intern (s : State) (hs : CacheOk s) (n₁ n₂ : List Nat) :
    ((s.sym_intern n₁).2.sym_intern n₁).1 = (s.sym_intern n₁).1 ∧
    (∀ hdl, assocLookup s.symbolCache n₁ = some hdl →
      s.sym_intern n₁ = (hdl, s)) ∧
    (n₁ ≠ n₂ → ((s.sym_intern n₁).2.sym_intern n₂).1 ≠ (s.sym_intern n₁).1) := by
  refine ⟨?_, ?_, ?_⟩
  · rw [sym_intern_hit (s.sym_intern n₁).2 n₁ (sym_intern_cache_lookup s n₁)]
  · intro hdl h
    exact sym_intern_hit s n₁ h
  · intro hne heq
    have g₁ := sym_intern_get s n₁ hs
    have g₂ := sym_intern_get (s.sym_intern n₁).2 n₂ (sym_intern_cacheOk s n₁ hs)
    have g₃ := sym_intern_mono (s.sym_intern n₁).2 n₂ (s.sym_intern n₁).1 n₁ g₁
    rw [heq] at g₂
    exact hne (Option.some.inj (g₃.symm.trans g₂))

/-- C6 witness: interning `[1]` twice from a fresh state returns the same
handle; interning `[1]` then `[2]` returns distinct handles. -/
theorem claim_C6_sym_intern_witness :
    ((State.new.sym_intern [1]).2.sym_intern [1]).1 = (State.new.sym_intern [1]).1 ∧
    ((State.new.sym_intern [1]).2.sym_intern [2]).1 ≠ (State.new.sym_intern [1]).1 :=
  ⟨(claim_C6_sym_intern State.new (by intro p hp; cases hp) [1] [2]).1,
   (claim_C6_sym_intern State.new (by intro p hp; cases hp) [1] [2]).2.2
     (by decide)⟩

end Artichoke
